import Mathlib

/-!
Shallow embedding of the orchestration engine of the Vellaric Signal
control plane: the deployment queue and scheduler
(src/services/deploymentQueue.js), the SSL helper (src/utils/ssl.js),
the Cloudflare DNS helper, the deployment removal helper, and the
database instance provisioner (DatabaseManager).  External effects
(child process execution, the SQLite registry, the filesystem) are
modelled by explicit oracle records holding the outcome of each call, so
that every function of the source becomes a pure, executable Lean
function of its inputs and its oracle.
-/

namespace Vellaric

/-- Fallible external calls are modelled with `Except`; give it
decidable equality so witnesses can be checked by evaluation. -/
instance instDecEqExcept {ε α : Type} [DecidableEq ε] [DecidableEq α] :
    DecidableEq (Except ε α) := fun x y =>
  match x, y with
  | .ok a, .ok b =>
    if h : a = b then .isTrue (congrArg Except.ok h)
    else .isFalse (fun heq => h (Except.ok.inj heq))
  | .error a, .error b =>
    if h : a = b then .isTrue (congrArg Except.error h)
    else .isFalse (fun heq => h (Except.error.inj heq))
  | .ok _, .error _ => .isFalse (fun heq => Except.noConfusion heq)
  | .error _, .ok _ => .isFalse (fun heq => Except.noConfusion heq)

/-! ## String helpers shared by several source files
All implemented by structural recursion on the character list so that
every model evaluates by kernel reduction. -/

/-- Whether `sub` is an initial segment of `s`. -/
def startsWithChars : List Char → List Char → Bool
  | _, [] => true
  | [], _ :: _ => false
  | c :: s, d :: t => c = d && startsWithChars s t

/-- Whether `sub` occurs contiguously in `s`. -/
def occursChars : List Char → List Char → Bool
  | [], sub => sub.isEmpty
  | c :: rest, sub => startsWithChars (c :: rest) sub || occursChars rest sub

/-- JS `s.includes(sub)`: substring containment test. -/
def containsSubstr (s sub : String) : Bool :=
  occursChars s.data sub.data

/-- JS `s.trim()`: strip whitespace from both ends. -/
def trimChars (s : String) : String :=
  ⟨((s.data.dropWhile Char.isWhitespace).reverse.dropWhile
      Char.isWhitespace).reverse⟩

/-- JS `s.toLowerCase()` (ASCII range, as used by the naming rules). -/
def lowerAscii (s : String) : String :=
  ⟨s.data.map Char.toLower⟩

/-- JS `s.replace(/\s+/g, "-")` on a list of characters: every maximal
run of whitespace becomes a single dash.  The boolean flag records
whether the previous character was whitespace. -/
def collapseWhitespaceAux : List Char → Bool → List Char
  | [], _ => []
  | c :: rest, inRun =>
    if c.isWhitespace then
      if inRun then collapseWhitespaceAux rest true
      else '-' :: collapseWhitespaceAux rest true
    else c :: collapseWhitespaceAux rest false

/-- JS `s.replace(/\s+/g, "-")`. -/
def collapseWhitespace (s : String) : String :=
  ⟨collapseWhitespaceAux s.data false⟩

/-! ## Domain derivation
`deploymentQueue.js` lines 138-150 and the removal helper derive the
container name and the public domain from the project name and branch. -/

/-- deploymentQueue.js line 138:
`projectName.replace(/\s+/g, "-").toLowerCase()`. -/
def dockerImageName (projectName : String) : String :=
  lowerAscii (collapseWhitespace projectName)

/-- deploymentQueue.js lines 142-148: the subdomain is the image name,
with `-dev` appended for branch `dev` and `-production` appended for
branch `production`; all other branches (main/master) get no suffix. -/
def deploySubdomain (projectName branch : String) : String :=
  let base := dockerImageName projectName
  if branch = "dev" then base ++ "-dev"
  else if branch = "production" then base ++ "-production"
  else base

/-- deploymentQueue.js line 150: `subdomain.BASE_DOMAIN`. -/
def deployDomain (projectName branch baseDomain : String) : String :=
  deploySubdomain projectName branch ++ "." ++ baseDomain

/-- removeDeployment lines 17-23: the removal helper recomputes the
subdomain with the same rule as the deployment path. -/
def removalSubdomain (projectName branch : String) : String :=
  let baseProjectName := lowerAscii (collapseWhitespace projectName)
  if branch = "dev" then baseProjectName ++ "-dev"
  else if branch = "production" then baseProjectName ++ "-production"
  else baseProjectName

/-- removeDeployment line 25. -/
def removalDomain (projectName branch baseDomain : String) : String :=
  removalSubdomain projectName branch ++ "." ++ baseDomain

/-! ## Environment variable resolution
`deploymentQueue.js` lines 226-251.  A JS object literal with spreads
is an ordered list of bindings in which a later binding for the same
key wins, so we model objects as association lists with last-wins
lookup. -/

/-- Lookup in a JS-object-as-binding-list: the last binding for a key
wins, matching how object spread resolves duplicate keys. -/
def objLookup (bindings : List (String × String)) (k : String) : Option String :=
  match bindings with
  | [] => none
  | (k0, v) :: rest =>
    match objLookup rest k with
    | some v0 => some v0
    | none => if k0 = k then some v else none

/-- deploymentQueue.js lines 232-237: the environment map written into
the temporary env file handed to `docker run`.  It is the database
variables spread first, then the three deployment keys, which therefore
override any same-named database variable. -/
def containerEnvVars (envVarsFromDb : List (String × String))
    (branch commit domain : String) : List (String × String) :=
  envVarsFromDb ++
    [("DEPLOY_BRANCH", branch), ("DEPLOY_COMMIT", commit), ("DEPLOY_DOMAIN", domain)]

/-- deploymentQueue.js lines 226-251: the deploy step checks whether the
source tree has its own `.env` file (`hasEnvFile`) but only logs the
fact; the file content never enters the map passed to the container.
The unused arguments record exactly that. -/
def resolveContainerEnv (envVarsFromDb : List (String × String))
    (branch commit domain : String)
    (sourceTreeEnvFile : List (String × String)) : List (String × String) :=
  containerEnvVars envVarsFromDb branch commit domain

/-! ## The deployment queue scheduler
`deploymentQueue.js` lines 40-104.  The scheduler state is the pending
FIFO list plus the map of building deployments (`buildingDeployments`
and `activeDeployments` are updated in lockstep in the source, so one
list suffices).  `processQueue` is a synchronous pass: it shifts the
front of the queue and promotes it to building while a slot is free.
Enqueueing triggers a pass, and each completion callback removes the
finished deployment and triggers a pass. -/

structure Deployment where
  id : Nat
  projectName : String
  branch : String
deriving DecidableEq, Repr

structure QueueState where
  queue : List Deployment
  building : List Deployment
deriving DecidableEq, Repr

/-- deploymentQueue.js lines 80-101: the `while` loop of `processQueue`.
While the queue is nonempty and a build slot is free, shift the front
element and promote it to building. -/
def processQueuePass (cap : Nat) :
    List Deployment → List Deployment → List Deployment × List Deployment
  | [], b => ([], b)
  | d :: rest, b =>
    if b.length < cap then processQueuePass cap rest (b ++ [d])
    else (d :: rest, b)

/-- One full scheduling pass over a queue state. -/
def runPass (cap : Nat) (s : QueueState) : QueueState :=
  let p := processQueuePass cap s.queue s.building
  ⟨p.1, p.2⟩

/-- Atomic scheduler transitions: `queueDeployment` appends a request
and runs a pass (lines 49-66); a completion callback removes the
finished deployment from the building set and runs a pass
(lines 89-100). -/
inductive QStep (cap : Nat) : QueueState → QueueState → Prop
  | enqueue (s : QueueState) (d : Deployment) :
      QStep cap s (runPass cap ⟨s.queue ++ [d], s.building⟩)
  | complete (s : QueueState) (d : Deployment) (h : d ∈ s.building) :
      QStep cap s (runPass cap ⟨s.queue, s.building.erase d⟩)

/-- States reachable from the initial empty scheduler. -/
inductive QReachable (cap : Nat) : QueueState → Prop
  | init : QReachable cap ⟨[], []⟩
  | step {s t : QueueState} :
      QReachable cap s → QStep cap s t → QReachable cap t

/-! ## Container health wait
`deploymentQueue.js` lines 379-438 (`waitForContainer`).  One loop
iteration observes the container once; the observation holds the raw
stdout of each docker command of that iteration, with `Except.error`
for a rejected `execAsync` call.  The health probe is guarded by
`2>/dev/null || echo "none"` in the source and so never rejects. -/

structure ContainerObs where
  /-- `docker inspect --format=.State.Health.Status` with `|| echo "none"`. -/
  health : String
  /-- `docker inspect --format=.State.Running` (may reject). -/
  running : Except String String
  /-- `docker logs --tail 20` (running branch; may reject). -/
  logsTail20 : Except String String
  /-- `docker logs --tail 50` (stopped branch; may reject). -/
  logsTail50 : Except String String
deriving DecidableEq, Repr

/-- deploymentQueue.js line 412: `/server running|listening|started|ready/i`. -/
def logsIndicateStarted (logs : String) : Bool :=
  let l := lowerAscii logs
  containsSubstr l "server running" || containsSubstr l "listening" ||
    containsSubstr l "started" || containsSubstr l "ready"

inductive WaitStep where
  /-- The iteration returns: the container is judged healthy. -/
  | healthy
  /-- The container stopped: the captured trailing output is logged and
  the dedicated error is thrown and rethrown past the catch. -/
  | stoppedFatal (trailing : String)
  /-- Fall through to the one second sleep and the next attempt. -/
  | keepWaiting
deriving DecidableEq, Repr

/-- One iteration of the `waitForContainer` loop (lines 387-432),
attempt index `i`.  Any rejected docker command other than the
deliberate stop error is caught by the surrounding catch and the loop
keeps waiting. -/
def waitAttempt (i : Nat) (o : ContainerObs) : WaitStep :=
  if trimChars o.health = "healthy" then .healthy
  else
    match o.running with
    | .error _ => .keepWaiting
    | .ok r =>
      if trimChars r = "true" then
        if 30 ≤ i then .healthy
        else if 15 ≤ i ∧ i % 5 = 0 then
          match o.logsTail20 with
          | .ok logs => if logsIndicateStarted logs then .healthy else .keepWaiting
          | .error _ => .keepWaiting
        else .keepWaiting
      else if trimChars r = "false" then
        match o.logsTail50 with
        | .ok logs => .stoppedFatal logs
        | .error _ => .keepWaiting
      else .keepWaiting

/-- The error thrown out of `waitForContainer`, together with the
trailing container output captured (and logged) just before the throw,
if any. -/
structure WaitErr where
  message : String
  trailing : Option String
deriving DecidableEq, Repr

/-- The result of the wait together with the number of loop iterations
that were actually executed. -/
structure WaitOutcome where
  result : Except WaitErr Unit
  attemptsUsed : Nat
deriving DecidableEq, Repr

/-- The `for` loop of `waitForContainer`: `i` is the current attempt
index, the second argument the remaining attempts. -/
def waitLoop (obs : Nat → ContainerObs) (i : Nat) : Nat → WaitOutcome
  | 0 =>
    ⟨.error ⟨"Container failed to start properly - timed out waiting for health check",
      none⟩, i⟩
  | fuel + 1 =>
    match waitAttempt i (obs i) with
    | .healthy => ⟨.ok (), i + 1⟩
    | .stoppedFatal logs => ⟨.error ⟨"Container stopped unexpectedly", some logs⟩, i + 1⟩
    | .keepWaiting => waitLoop obs (i + 1) fuel

/-- deploymentQueue.js lines 379-438, `maxAttempts = 60` at the call
site. -/
def waitForContainer (obs : Nat → ContainerObs) (maxAttempts : Nat) : WaitOutcome :=
  waitLoop obs 0 maxAttempts

/-! ## Database readiness wait
DatabaseManager.waitForDatabase (unnamed part, lines 139-183). -/

structure DbObs where
  /-- `docker ps --filter name --filter status=running --format Names`. -/
  psRunning : Except String String
  /-- `docker logs ... tail -20` fetched when the container is not listed. -/
  logsTail : Except String String
  /-- `docker exec ... pg_isready` (rejects while the engine refuses
  connections). -/
  pgReady : Except String String
deriving DecidableEq, Repr

inductive DbTryResult where
  /-- `pg_isready` reported `accepting connections`: return true. -/
  | ready
  /-- Ran to the end of the try block without returning. -/
  | notReady
  /-- An exception was raised inside the try block (including the
  deliberate `Container ... failed to start` error). -/
  | thrown (msg : String)
deriving DecidableEq, Repr

/-- The try block of one `waitForDatabase` iteration (lines 143-164).
When the container is not listed as running, the source fetches the
logs and then throws `Container <name> failed to start`. -/
def dbTryBody (o : DbObs) (containerName : String) : DbTryResult :=
  match o.psRunning with
  | .error e => .thrown e
  | .ok out =>
    if ¬ containsSubstr out containerName then
      match o.logsTail with
      | .error e => .thrown e
      | .ok _ => .thrown ("Container " ++ containerName ++ " failed to start")
    else
      match o.pgReady with
      | .error e => .thrown e
      | .ok out2 =>
        if containsSubstr out2 "accepting connections" then .ready else .notReady

/-- One full `waitForDatabase` iteration: the catch block (lines
165-170) swallows every exception thrown inside the try block, only
logging a progress line, so a `thrown` result falls through to the
sleep exactly like `notReady`. -/
def dbAttempt (o : DbObs) (containerName : String) : Bool :=
  match dbTryBody o containerName with
  | .ready => true
  | .notReady => false
  | .thrown _ => false

/-- The `for` loop of `waitForDatabase`; after `maxAttempts` exhausted
attempts it throws the timeout error naming `maxAttempts * 2` seconds
(two second sleeps). -/
def dbWaitLoop (obs : Nat → DbObs) (containerName : String) (maxAttempts i : Nat) :
    Nat → Except String Bool × Nat
  | 0 =>
    (.error ("Database failed to start after " ++ toString (maxAttempts * 2) ++ " seconds"),
     i)
  | fuel + 1 =>
    if dbAttempt (obs i) containerName then (.ok true, i + 1)
    else dbWaitLoop obs containerName maxAttempts (i + 1) fuel

/-- DatabaseManager.waitForDatabase with default `maxAttempts = 60`,
returning the outcome and the number of attempts executed. -/
def waitForDatabase (obs : Nat → DbObs) (containerName : String)
    (maxAttempts : Nat) : Except String Bool × Nat :=
  dbWaitLoop obs containerName maxAttempts 0 maxAttempts

/-! ## Port allocation
`DeploymentQueue.findAvailablePort` (lines 342-354, scan range 100) and
`DatabaseManager.findAvailablePort` (lines 188-200, scan range 1000).
Both run `lsof -i:port || echo "free"` and return the first port whose
output contains `free`; a rejected exec also returns the port.  The
`occupied` function models which ports the lsof probe reports busy;
nothing is bound between probes, since the returned port is only bound
later when the container starts. -/

def portScan (occupied : Nat → Bool) (noPortsMsg : String) (port : Nat) :
    Nat → Except String Nat
  | 0 => .error noPortsMsg
  | fuel + 1 =>
    if occupied port then portScan occupied noPortsMsg (port + 1) fuel
    else .ok port

/-- DeploymentQueue.findAvailablePort: 100 candidate ports. -/
def findAvailablePortDeploy (occupied : Nat → Bool) (startPort : Nat) :
    Except String Nat :=
  portScan occupied "No available ports found" startPort 100

/-- DatabaseManager.findAvailablePort: 1000 candidate ports. -/
def findAvailablePortDb (occupied : Nat → Bool) (startPort : Nat) :
    Except String Nat :=
  portScan occupied "No available ports" startPort 1000

/-- An in-flight allocation call: current candidate port, remaining
scan fuel, and the returned value once the call finished. -/
structure AllocTask where
  port : Nat
  fuel : Nat
  result : Option (Except String Nat)
deriving DecidableEq, Repr

/-- One atomic step of an allocation call: a single lsof probe (each
probe is an awaited exec, so the JS scheduler can interleave other
tasks between probes).  The shared port state is read only -- the code
takes no lock and reserves nothing between the probe and the later
container start. -/
def allocStep (occupied : Nat → Bool) (msg : String) (t : AllocTask) : AllocTask :=
  match t.result with
  | some _ => t
  | none =>
    match t.fuel with
    | 0 => { t with result := some (.error msg) }
    | f + 1 =>
      if occupied t.port then { port := t.port + 1, fuel := f, result := none }
      else { t with result := some (.ok t.port) }

/-- Run two concurrent allocation calls under a schedule: `true` steps
the first task, `false` the second. -/
def runSchedule (occupied : Nat → Bool) (msg : String) :
    List Bool → AllocTask × AllocTask → AllocTask × AllocTask
  | [], ts => ts
  | b :: rest, (ta, tb) =>
    runSchedule occupied msg rest
      (if b then (allocStep occupied msg ta, tb) else (ta, allocStep occupied msg tb))

/-! ## SSL certificate helper
src/utils/ssl.js lines 63-78.  Both branches of `ensureSSLCertificate`
invoke `obtainCertificate(domain)` (the certbot call, which rethrows
its errors), the first after noting that a certificate already
exists. -/

/-- ssl.js `ensureSSLCertificate`: whether or not the certificate file
already exists, the result is that of the certbot invocation, and any
certbot error propagates to the caller. -/
def ensureSSLCertificate (certFileExists : Bool)
    (obtainCertificateResult : Except String Bool) : Except String Bool :=
  if certFileExists then obtainCertificateResult else obtainCertificateResult

/-! ## Cloudflare DNS setup
`setupDeploymentDns` and its helpers (cloudflare utility, lines
203-236).  `getPublicIp` catches fetch errors and falls back to the
`VPS_PUBLIC_IP` environment variable or `null`, so it is modelled as a
total `Option String`. -/

structure DnsOracle where
  /-- `CLOUDFLARE_API_TOKEN`. -/
  apiToken : Option String
  /-- Outcome of `getPublicIp` (never rejects). -/
  publicIp : Option String
  /-- Outcome of `createDnsRecord` once reached: the action string
  (`created` or `updated`) or the rethrown API error. -/
  createRecordResult : Except String String
deriving DecidableEq, Repr

structure DnsResult where
  success : Bool
  method : String
  action : Option String
  error : Option String
deriving DecidableEq, Repr

/-- cloudflare utility lines 218-236.  The return type is `Except` so
that a throwing path, if one existed, would be visible; the try/catch
turns every internal failure into an ok fallback result instead. -/
def setupDeploymentDns (o : DnsOracle) : Except String DnsResult :=
  match o.apiToken with
  | none => .ok ⟨true, "wildcard", none, none⟩
  | some _ =>
    let tryBlock : Except String String :=
      match o.publicIp with
      | none => .error "Could not determine public IP address"
      | some _ => o.createRecordResult
    match tryBlock with
    | .ok action => .ok ⟨true, "api", some action, none⟩
    | .error e => .ok ⟨false, "fallback", none, some e⟩

/-! ## DNS propagation wait
deploymentQueue.js lines 356-377.  Each iteration runs
`dig +short domain` inside a try/catch; a nonempty trimmed stdout
means the record resolved.  The function returns a boolean and never
rejects. -/

def waitForDnsPropagation (digResults : Nat → Except String String) (i : Nat) :
    Nat → Bool
  | 0 => false
  | fuel + 1 =>
    match digResults i with
    | .ok out => if trimChars out ≠ "" then true else waitForDnsPropagation digResults (i + 1) fuel
    | .error _ => waitForDnsPropagation digResults (i + 1) fuel

/-! ## The deploy pipeline
`DeploymentQueue.deploy`, lines 152-339: the try block runs the
container lifecycle steps in order and the catch records `failed`; on
reaching the end the status `success` is recorded.  Steps that cannot
reject (EXPOSE detection with its own catch and default, the
`|| true`-guarded docker stop/rm/rmi cleanup, the temp env file unlink
with its own catch, `setupDeploymentDns`, `waitForDnsPropagation`) are
noted in place.  The oracle holds the outcome of each awaited external
call. -/

structure DeployOracle where
  /-- git clone, or fetch + checkout + reset (lines 156-172). -/
  gitResult : Except String Unit
  /-- `fs.access(Dockerfile)` (line 176). -/
  dockerfileExists : Bool
  /-- `docker build` (line 208). -/
  buildResult : Except String Unit
  /-- `findAvailablePort` (line 211). -/
  portResult : Except String Nat
  /-- `getEnvironmentVariablesAsObject` (line 215). -/
  envVarsResult : Except String (List (String × String))
  /-- `fs.writeFile` of the temporary env file (line 245). -/
  writeEnvResult : Except String Unit
  /-- `docker run` (line 255). -/
  runResult : Except String Unit
  /-- `waitForContainer` (line 265). -/
  waitResult : Except String Unit
  /-- `setupDeploymentDns` (line 269, never rejects). -/
  dnsOracle : DnsOracle
  /-- `generateNginxConfig` (line 273). -/
  nginxResult : Except String Unit
  /-- first `reloadNginx` (line 276). -/
  reloadResult : Except String Unit
  /-- `dig` outcomes for `waitForDnsPropagation` (line 283). -/
  digResults : Nat → Except String String
  /-- `certificateExists` check inside `ensureSSLCertificate`. -/
  certFileExists : Bool
  /-- the certbot invocation inside `ensureSSLCertificate` (line 286). -/
  obtainCertificateResult : Except String Bool
  /-- second `reloadNginx` (line 287). -/
  reload2Result : Except String Unit

/-- The terminal status written by `updateDeploymentStatus` at the end
of `deploy`, with the captured error detail for the failed case. -/
structure DeployOutcome where
  finalStatus : String
  errorDetail : Option String
deriving DecidableEq, Repr

/-- The try block of `deploy` (lines 152-317): each awaited call
propagates a rejection out of the block.  Steps with no rejection path
are noted as comments.  The SSL block (lines 280-294) has its own catch
whose handler only logs warnings, so its outcome is computed and
discarded. -/
def deployTryBody (o : DeployOracle) : Except String Unit :=
  match o.gitResult with
  | .error e => .error e
  | .ok _ =>
  if ¬ o.dockerfileExists then .error "No Dockerfile found in repository"
  else
  -- EXPOSE port detection (lines 183-195) has its own catch and a
  -- configured default; docker stop/rm/rmi (lines 199-204) are guarded
  -- by "|| true": none of these can reject.
  match o.buildResult with
  | .error e => .error e
  | .ok _ =>
  match o.portResult with
  | .error e => .error e
  | .ok _port =>
  match o.envVarsResult with
  | .error e => .error e
  | .ok _envVarsFromDb =>
  -- the .env existence check (line 228) only feeds a log line
  match o.writeEnvResult with
  | .error e => .error e
  | .ok _ =>
  match o.runResult with
  | .error e => .error e
  | .ok _ =>
  -- temp env file unlink (lines 258-262) has its own catch
  match o.waitResult with
  | .error e => .error e
  | .ok _ =>
  match setupDeploymentDns o.dnsOracle with
  | .error e => .error e
  | .ok _dns =>
  match o.nginxResult with
  | .error e => .error e
  | .ok _ =>
  match o.reloadResult with
  | .error e => .error e
  | .ok _ =>
  -- SSL block with its own catch (lines 280-294): its outcome is
  -- discarded after logging, so certificate problems never escape.
  let _dnsPropagated := waitForDnsPropagation o.digResults 0 30
  let _ssl : Except String Unit :=
    match ensureSSLCertificate o.certFileExists o.obtainCertificateResult with
    | .error e => .error e
    | .ok _ => o.reload2Result
  .ok ()

/-- `deploy` records `success` when the try block completes and
`failed` with the error message otherwise (lines 296-339). -/
def deploy (o : DeployOracle) : DeployOutcome :=
  match deployTryBody o with
  | .ok _ => ⟨"success", none⟩
  | .error e => ⟨"failed", some e⟩

/-! ## Database provisioning
DatabaseManager.createDatabase (unnamed part, lines 38-134).  The
command trace records every exec side effect the call performs, in
order, so that "no container mutation" is the statement that the trace
is empty. -/

/-- DatabaseManager line 44:
`name.toLowerCase().replace(/[^a-z0-9]/g, "-")` (each character
outside `[a-z0-9]` becomes one dash). -/
def sanitizeDbName (name : String) : String :=
  ⟨(lowerAscii name).data.map (fun c => if c.isLower || c.isDigit then c else '-')⟩

inductive DbCmd where
  /-- `docker ps -a --filter name` existence probe (line 60). -/
  | psCheck (containerName : String)
  /-- `docker rm -f` of a stale container (line 63). -/
  | rmForce (containerName : String)
  /-- `rm -rf` of the stale volume (line 65). -/
  | rmVolume (volumePath : String)
  /-- the lsof scan of `findAvailablePort` (line 73). -/
  | lsofScan (startPort : Nat)
  /-- `mkdir -p` of the data directory (line 76). -/
  | mkdirVol (volumePath : String)
  /-- `docker run` of the postgres container (line 82). -/
  | runPostgres (containerName : String) (port : Nat)
  /-- the docker probes of `waitForDatabase` (line 95). -/
  | waitProbes (containerName : String)
deriving DecidableEq, Repr

structure CreateDbOracle where
  /-- `getDatabaseByName(name, environment)`: some row means a database
  with this (name, environment) pair is already registered. -/
  existingRow : Option String
  /-- `docker ps -a` existence probe output (rejections are swallowed
  by the cleanup catch). -/
  psOutput : Except String String
  /-- `findAvailablePort(5432)`. -/
  portResult : Except String Nat
  /-- `mkdir -p`. -/
  mkdirResult : Except String Unit
  /-- `docker run`. -/
  runResult : Except String Unit
  /-- `waitForDatabase`. -/
  waitResult : Except String Bool
  /-- `saveDatabaseInfo` insert. -/
  saveResult : Except String Unit
deriving Repr

/-- The record returned on success (credentials elided to the parts the
claims mention). -/
structure DbCreated where
  containerName : String
  host : String
  port : Nat
  username : String
deriving DecidableEq, Repr

/-- DatabaseManager.createDatabase.  Returns the outcome together with
the ordered trace of executed external commands.  The duplicate check
(lines 49-52) runs before any exec command: only id, username, password
and container name derivation (pure) precede it. -/
def createDatabase (name env baseDomain dataDir : String) (o : CreateDbOracle) :
    Except String DbCreated × List DbCmd :=
  let username := sanitizeDbName name
  let containerName := username ++ "-" ++ env ++ "-postgres"
  match o.existingRow with
  | some _ =>
    (.error ("Database \"" ++ name ++ "\" already exists in " ++ env ++ " environment"),
     [])
  | none =>
    let host := containerName ++ ".db." ++ baseDomain
    let volumePath := dataDir ++ "/" ++ containerName
    -- stale container cleanup (lines 58-70); its catch ignores errors
    let cleanupTrace :=
      match o.psOutput with
      | .error _ => [DbCmd.psCheck containerName]
      | .ok out =>
        if trimChars out = containerName then
          [DbCmd.psCheck containerName, DbCmd.rmForce containerName,
           DbCmd.rmVolume volumePath]
        else [DbCmd.psCheck containerName]
    match o.portResult with
    | .error e => (.error e, cleanupTrace ++ [DbCmd.lsofScan 5432])
    | .ok port =>
      let t1 := cleanupTrace ++ [DbCmd.lsofScan 5432]
      match o.mkdirResult with
      | .error e => (.error e, t1 ++ [DbCmd.mkdirVol volumePath])
      | .ok _ =>
        let t2 := t1 ++ [DbCmd.mkdirVol volumePath]
        match o.runResult with
        | .error e => (.error e, t2 ++ [DbCmd.runPostgres containerName port])
        | .ok _ =>
          let t3 := t2 ++ [DbCmd.runPostgres containerName port]
          match o.waitResult with
          | .error e => (.error e, t3 ++ [DbCmd.waitProbes containerName])
          | .ok _ =>
            let t4 := t3 ++ [DbCmd.waitProbes containerName]
            match o.saveResult with
            | .error e => (.error e, t4)
            | .ok _ => (.ok ⟨containerName, host, port, username⟩, t4)

/-! ## Concrete scenarios used as evaluation inputs -/

/-- A container that is plainly running (no health check) for the first
two polls and then observed stopped with captured trailing output. -/
def stoppedObs : Nat → ContainerObs := fun j =>
  if j < 2 then ⟨"none", .ok "true", .ok "", .ok ""⟩
  else ⟨"none", .ok "false", .ok "", .ok "crash log"⟩

/-- A database container that never appears in the running list:
`docker ps` output is empty, the log fetch succeeds, and `pg_isready`
rejects. -/
def deadDbObs : Nat → DbObs := fun _ =>
  ⟨.ok "", .ok "postgres boot error", .error "connection refused"⟩

/-- A deployment run in which everything up to the certificate step
succeeds and the certbot invocation fails. -/
def certFailOracle : DeployOracle :=
  ⟨.ok (), true, .ok (), .ok 3456, .ok [("NODE_ENV", "production")], .ok (),
   .ok (), .ok (), ⟨none, none, .error "unused"⟩, .ok (), .ok (),
   fun _ => .error "dig timeout", false, .error "certbot exited 1", .ok ()⟩

/-- A creation request for a (name, environment) pair that is already
registered. -/
def dupOracle : CreateDbOracle :=
  ⟨some "row", .ok "", .ok 5433, .ok (), .ok (), .ok true, .ok ()⟩

/-- Two distinct deployment requests for the same project and branch. -/
def apiDev1 : Deployment := ⟨1, "api", "dev"⟩

/-- Second request for the same (project, branch) pair as `apiDev1`. -/
def apiDev2 : Deployment := ⟨2, "api", "dev"⟩

end Vellaric

namespace Vellaric

/-! ## Basic lemmas about the scheduler pass -/

theorem objLookup_append (xs ys : List (String × String)) (k : String) :
    objLookup (xs ++ ys) k =
      match objLookup ys k with
      | some v => some v
      | none => objLookup xs k := by
  induction xs with
  | nil =>
    simp only [List.nil_append, objLookup]
    cases objLookup ys k <;> rfl
  | cons p rest ih =>
    obtain ⟨k0, v⟩ := p
    cases hys : objLookup ys k <;>
      simp [objLookup, ih, hys, List.cons_append, List.append_eq]

/-- The scheduling pass promotes exactly
`min (queue length) (free slots)` elements, taken from the front of the
queue in order. -/
theorem processQueuePass_eq (cap : Nat) (q b : List Deployment) :
    processQueuePass cap q b =
      (q.drop (min q.length (cap - b.length)),
       b ++ q.take (min q.length (cap - b.length))) := by
  induction q generalizing b with
  | nil => simp [processQueuePass]
  | cons d rest ih =>
    by_cases h : b.length < cap
    · have hlen : (b ++ [d]).length = b.length + 1 := by simp
      have hmin : min (d :: rest).length (cap - b.length)
          = min rest.length (cap - (b.length + 1)) + 1 := by
        simp only [List.length_cons]; omega
      rw [hmin]
      simp only [processQueuePass, if_pos h, List.drop_succ_cons,
        List.take_succ_cons]
      rw [ih (b ++ [d]), hlen]
      simp [List.append_assoc]
    · have hz : cap - b.length = 0 := by omega
      simp [processQueuePass, if_neg h, hz]

/-- A pass never pushes the building set above capacity. -/
theorem processQueuePass_le (cap : Nat) (q b : List Deployment)
    (hb : b.length ≤ cap) :
    ((processQueuePass cap q b).2).length ≤ cap := by
  induction q generalizing b with
  | nil => simpa [processQueuePass] using hb
  | cons d rest ih =>
    by_cases h : b.length < cap
    · simp only [processQueuePass, if_pos h]
      exact ih (b ++ [d]) (by simp; omega)
    · simpa [processQueuePass, if_neg h] using hb

/-- The capacity bound is an invariant of every reachable state. -/
theorem qreachable_building_le (cap : Nat) (s : QueueState)
    (h : QReachable cap s) : s.building.length ≤ cap := by
  induction h with
  | init => exact Nat.zero_le cap
  | step hr hs ih =>
    rename_i s0 t0
    cases hs with
    | enqueue d =>
      exact processQueuePass_le cap (s0.queue ++ [d]) s0.building ih
    | complete d hd =>
      refine processQueuePass_le cap s0.queue (s0.building.erase d) ?_
      exact le_trans ((List.erase_sublist d s0.building).length_le) ih

/-- `setupDeploymentDns` returns an ok result on every input: every
throwing path inside its try block is converted to the fallback
result. -/
theorem setupDeploymentDns_isOk (o : DnsOracle) :
    ∃ r, setupDeploymentDns o = .ok r := by
  obtain ⟨tok, ip, res⟩ := o
  cases tok <;> cases ip <;> cases res <;> exact ⟨_, rfl⟩

/-! ## Claim theorems -/

/-- C10: `setupDeploymentDns` never throws to its caller: with no DNS
API token configured it returns a success result with method
`wildcard`; when the public IP cannot be determined or DNS record
creation fails, the error is caught and an ok fallback result carrying
the error message is returned; otherwise it reports the api method
with the performed action.  So DNS record-creation failure can never
fail a deployment. -/
theorem setupDeploymentDns_never_throws_and_falls_back (o : DnsOracle) :
    setupDeploymentDns o =
      .ok (match o.apiToken, o.publicIp, o.createRecordResult with
        | none, _, _ => ⟨true, "wildcard", none, none⟩
        | some _, none, _ =>
            ⟨false, "fallback", none, some "Could not determine public IP address"⟩
        | some _, some _, .error e => ⟨false, "fallback", none, some e⟩
        | some _, some _, .ok a => ⟨true, "api", some a, none⟩) := by
  obtain ⟨tok, ip, res⟩ := o
  cases tok <;> cases ip <;> cases res <;> rfl

/-- C2: for every deployment that reaches the certificate-provisioning
step (all steps before the SSL block succeeded), the terminal status
recorded is `success`, for every outcome of the DNS-propagation wait,
of the certbot invocation inside `ensureSSLCertificate`, and of the
post-certificate nginx reload: certificate failure is caught
internally and never makes the record `failed`. -/
theorem cert_failure_never_fails_deployment (o : DeployOracle)
    (hgit : o.gitResult = .ok ())
    (hdf : o.dockerfileExists = true)
    (hbuild : o.buildResult = .ok ())
    (p : Nat) (hport : o.portResult = .ok p)
    (vs : List (String × String)) (henv : o.envVarsResult = .ok vs)
    (hwrite : o.writeEnvResult = .ok ())
    (hrun : o.runResult = .ok ())
    (hwait : o.waitResult = .ok ())
    (hnginx : o.nginxResult = .ok ())
    (hreload : o.reloadResult = .ok ()) :
    deploy o = ⟨"success", none⟩ := by
  obtain ⟨r, hr⟩ := setupDeploymentDns_isOk o.dnsOracle
  simp [deploy, deployTryBody, hgit, hdf, hbuild, hport, henv, hwrite, hrun,
    hwait, hr, hnginx, hreload]

/-- C2 witness: a concrete run in which certbot fails and dig times out
still records `success`. -/
theorem cert_failure_never_fails_deployment_witness :
    deploy certFailOracle = ⟨"success", none⟩ :=
  cert_failure_never_fails_deployment certFailOracle rfl rfl rfl 3456 rfl
    [("NODE_ENV", "production")] rfl rfl rfl rfl rfl rfl

/-- C4: the environment map passed to the started container always
contains the three reserved deployment keys with exactly the
deployment-context values, regardless of same-named persisted
variables, and every non-reserved key resolves to its persisted
per-project-per-branch value: the own `.env` file of the source tree never
contributes to the map, so persisted variables take precedence over
it. -/
theorem env_merge_reserved_keys_and_db_precedence
    (dbVars srcEnv : List (String × String)) (branch commit domain : String) :
    objLookup (resolveContainerEnv dbVars branch commit domain srcEnv)
        "DEPLOY_BRANCH" = some branch ∧
    objLookup (resolveContainerEnv dbVars branch commit domain srcEnv)
        "DEPLOY_COMMIT" = some commit ∧
    objLookup (resolveContainerEnv dbVars branch commit domain srcEnv)
        "DEPLOY_DOMAIN" = some domain ∧
    ∀ k, k ≠ "DEPLOY_BRANCH" → k ≠ "DEPLOY_COMMIT" → k ≠ "DEPLOY_DOMAIN" →
      objLookup (resolveContainerEnv dbVars branch commit domain srcEnv) k =
        objLookup dbVars k := by
  unfold resolveContainerEnv containerEnvVars
  refine ⟨?_, ?_, ?_, ?_⟩
  · rw [objLookup_append]; rfl
  · rw [objLookup_append]; rfl
  · rw [objLookup_append]; rfl
  · intro k h1 h2 h3
    rw [objLookup_append]
    have hnone : objLookup
        [("DEPLOY_BRANCH", branch), ("DEPLOY_COMMIT", commit),
         ("DEPLOY_DOMAIN", domain)] k = none := by
      simp only [objLookup,
        if_neg (fun h : "DEPLOY_BRANCH" = k => h1 h.symm),
        if_neg (fun h : "DEPLOY_COMMIT" = k => h2 h.symm),
        if_neg (fun h : "DEPLOY_DOMAIN" = k => h3 h.symm)]
    rw [hnone]

/-- C4 witness: the concrete example of the spec, with a conflicting
`NODE_ENV` in the default `.env` file of the source tree. -/
theorem env_merge_reserved_keys_and_db_precedence_witness :
    objLookup (resolveContainerEnv [("NODE_ENV", "production")] "dev" "abc123"
        "app.example.com" [("NODE_ENV", "development")]) "DEPLOY_BRANCH" = some "dev" ∧
    objLookup (resolveContainerEnv [("NODE_ENV", "production")] "dev" "abc123"
        "app.example.com" [("NODE_ENV", "development")]) "DEPLOY_COMMIT" = some "abc123" ∧
    objLookup (resolveContainerEnv [("NODE_ENV", "production")] "dev" "abc123"
        "app.example.com" [("NODE_ENV", "development")]) "DEPLOY_DOMAIN" =
      some "app.example.com" ∧
    ∀ k, k ≠ "DEPLOY_BRANCH" → k ≠ "DEPLOY_COMMIT" → k ≠ "DEPLOY_DOMAIN" →
      objLookup (resolveContainerEnv [("NODE_ENV", "production")] "dev" "abc123"
        "app.example.com" [("NODE_ENV", "development")]) k =
        objLookup [("NODE_ENV", "production")] k :=
  env_merge_reserved_keys_and_db_precedence [("NODE_ENV", "production")]
    [("NODE_ENV", "development")] "dev" "abc123" "app.example.com"

/-- C1: in every reachable scheduler state the number of deployments in
the building state never exceeds the configured maximum concurrent
build count, and every scheduling pass dequeues from the front of the
pending list in FIFO order: the promoted deployments are an initial
segment of the pending list, appended to the building set in order. -/
theorem building_capacity_bound_and_fifo (cap : Nat) (s : QueueState)
    (h : QReachable cap s) :
    s.building.length ≤ cap ∧
    ∀ q b : List Deployment, ∃ k,
      processQueuePass cap q b = (q.drop k, b ++ q.take k) := by
  refine ⟨qreachable_building_le cap s h, ?_⟩
  intro q b
  exact ⟨min q.length (cap - b.length), processQueuePass_eq cap q b⟩

/-- C1 witness: the state reached by enqueueing two deployments at
capacity 2. -/
theorem building_capacity_bound_and_fifo_witness :
    (QueueState.mk [] [⟨1, "api", "dev"⟩, ⟨2, "web", "main"⟩]).building.length ≤ 2 ∧
    ∀ q b : List Deployment, ∃ k,
      processQueuePass 2 q b = (q.drop k, b ++ q.take k) := by
  have e1 : runPass 2 ⟨[] ++ [⟨1, "api", "dev"⟩], ([] : List Deployment)⟩ =
      ⟨[], [⟨1, "api", "dev"⟩]⟩ := rfl
  have e2 : runPass 2 ⟨[] ++ [⟨2, "web", "main"⟩], [⟨1, "api", "dev"⟩]⟩ =
      ⟨[], [⟨1, "api", "dev"⟩, ⟨2, "web", "main"⟩]⟩ := rfl
  refine building_capacity_bound_and_fifo 2 _ ?_
  have h1 := QReachable.step QReachable.init
    (@QStep.enqueue 2 ⟨[], []⟩ ⟨1, "api", "dev"⟩)
  rw [e1] at h1
  have h2 := QReachable.step h1
    (@QStep.enqueue 2 ⟨[], [⟨1, "api", "dev"⟩]⟩ ⟨2, "web", "main"⟩)
  rw [e2] at h2
  exact h2

/-- C9 counterexample: a reachable scheduler state in which two
distinct deployment requests for the same (project, branch) pair are
both in the building state at once, so the claimed mutual exclusion
per pair does not hold. -/
theorem same_pair_builds_concurrently :
    ∃ s : QueueState, QReachable 3 s ∧
      apiDev1 ∈ s.building ∧ apiDev2 ∈ s.building ∧
      apiDev1.projectName = apiDev2.projectName ∧
      apiDev1.branch = apiDev2.branch ∧ apiDev1.id ≠ apiDev2.id := by
  have e1 : runPass 3 ⟨[] ++ [apiDev1], ([] : List Deployment)⟩ =
      ⟨[], [apiDev1]⟩ := rfl
  have e2 : runPass 3 ⟨[] ++ [apiDev2], [apiDev1]⟩ =
      ⟨[], [apiDev1, apiDev2]⟩ := rfl
  refine ⟨⟨[], [apiDev1, apiDev2]⟩, ?_, by decide, by decide, rfl, rfl, by decide⟩
  have h1 := QReachable.step QReachable.init (@QStep.enqueue 3 ⟨[], []⟩ apiDev1)
  rw [e1] at h1
  have h2 := QReachable.step h1 (@QStep.enqueue 3 ⟨[], [apiDev1]⟩ apiDev2)
  rw [e2] at h2
  exact h2

/-- C9 amended: the scheduler promotes pending deployments purely by
free capacity, never inspecting the (project, branch) pair: a pass
promotes exactly the first `min (pending length) (capacity - building)`
pending requests, so a second request for a pair already building is
promoted as soon as a slot is free, and per-pair exclusivity is left to
the deterministically derived container name (last writer wins). -/
theorem scheduler_promotes_by_capacity_only (cap : Nat) (q b : List Deployment) :
    processQueuePass cap q b =
      (q.drop (min q.length (cap - b.length)),
       b ++ q.take (min q.length (cap - b.length))) :=
  processQueuePass_eq cap q b

/-- Skipping `keepWaiting` attempts: if every attempt from `s` for `d`
steps keeps waiting and attempt `s + d` observes the container stopped,
the loop returns the stop error with the captured trailing output after
exactly `s + d + 1` attempts. -/
theorem waitLoop_stop (obs : Nat → ContainerObs) (l : String) :
    ∀ d s fuel,
      (∀ j, s ≤ j → j < s + d → waitAttempt j (obs j) = .keepWaiting) →
      waitAttempt (s + d) (obs (s + d)) = .stoppedFatal l →
      s + d < s + fuel →
      waitLoop obs s fuel =
        ⟨.error ⟨"Container stopped unexpectedly", some l⟩, s + d + 1⟩ := by
  intro d
  induction d with
  | zero =>
    intro s fuel hskip hstop hfuel
    cases fuel with
    | zero => omega
    | succ f =>
      simp only [waitLoop, Nat.add_zero] at hstop ⊢
      rw [hstop]
  | succ d ih =>
    intro s fuel hskip hstop hfuel
    cases fuel with
    | zero => omega
    | succ f =>
      have hs : waitAttempt s (obs s) = .keepWaiting :=
        hskip s (Nat.le_refl s) (by omega)
      simp only [waitLoop]
      rw [hs]
      have h := ih (s + 1) f
        (fun j hj1 hj2 => hskip j (by omega) (by omega))
        (by have h2 : s + 1 + d = s + (d + 1) := by omega
            rw [h2]; exact hstop)
        (by omega)
      rw [h]
      have h3 : s + 1 + d + 1 = s + (d + 1) + 1 := by omega
      rw [h3]

/-- C5: a deployment container observed stopped before being judged
healthy makes `waitForContainer` fail immediately with the captured
trailing output, after exactly `i + 1` attempts, without polling
through the remaining attempts of the bounded timeout. -/
theorem container_stop_fails_immediately (obs : Nat → ContainerObs)
    (maxAttempts i : Nat) (l : String)
    (hlt : i < maxAttempts)
    (hbefore : ∀ j, j < i → waitAttempt j (obs j) = .keepWaiting)
    (hstop : waitAttempt i (obs i) = .stoppedFatal l) :
    waitForContainer obs maxAttempts =
      ⟨.error ⟨"Container stopped unexpectedly", some l⟩, i + 1⟩ := by
  have h := waitLoop_stop obs l i 0 maxAttempts
    (fun j hj1 hj2 => hbefore j (by omega))
    (by simpa using hstop) (by omega)
  simpa [waitForContainer] using h

/-- C5 witness: a container running for two polls and then stopped is
reported failed at attempt 3 of 60, carrying the trailing log. -/
theorem container_stop_fails_immediately_witness :
    waitForContainer stoppedObs 60 =
      ⟨.error ⟨"Container stopped unexpectedly", some "crash log"⟩, 3⟩ :=
  container_stop_fails_immediately stoppedObs 60 2 "crash log" (by decide)
    (by decide) (by decide)

/-- C6 evaluated at the failing input: with the engine container never
in the running list, each iteration of `waitForDatabase` throws the
deliberate fatal error `Container ... failed to start`, but the
surrounding catch swallows it, so the loop retries all 60 attempts and
ends with the generic 120 second timeout error instead of failing
immediately. -/
theorem db_container_exit_retried_until_timeout :
    dbTryBody (deadDbObs 0) "api-production-postgres" =
      .thrown "Container api-production-postgres failed to start" ∧
    waitForDatabase deadDbObs "api-production-postgres" 60 =
      (.error "Database failed to start after 120 seconds", 60) := by
  exact ⟨rfl, rfl⟩

/-- C7: when a database with the same (name, environment) pair is
already registered, `createDatabase` fails with the duplicate-name
error and its executed-command trace is empty: no container is
removed, created or started, no storage directory is touched and no
port scan runs before the error is returned. -/
theorem duplicate_db_create_fails_without_mutation
    (name env baseDomain dataDir row : String) (o : CreateDbOracle)
    (h : o.existingRow = some row) :
    createDatabase name env baseDomain dataDir o =
      (.error ("Database \"" ++ name ++ "\" already exists in " ++ env ++
        " environment"), ([] : List DbCmd)) := by
  simp only [createDatabase, h]

/-- C7 witness: a concrete duplicate creation request. -/
theorem duplicate_db_create_fails_without_mutation_witness :
    createDatabase "api" "production" "vellaric.com" "/var/vellaric/postgres"
        dupOracle =
      (.error "Database \"api\" already exists in production environment",
       ([] : List DbCmd)) :=
  duplicate_db_create_fails_without_mutation "api" "production" "vellaric.com"
    "/var/vellaric/postgres" "row" dupOracle rfl

/-- C3 evaluated at the failing input: two port allocation calls
starting at 5432, run concurrently over an all-free port state with
both lsof probes interleaved before either container binds its port,
both return 5432 -- the returned ports are not pairwise distinct, and
the sequential scan returns the same port, because nothing serializes
or reserves between the scan and the later bind. -/
theorem concurrent_port_allocation_collides :
    (runSchedule (fun _ => false) "No available ports" [true, false]
        (⟨5432, 1000, none⟩, ⟨5432, 1000, none⟩)).1.result = some (.ok 5432) ∧
    (runSchedule (fun _ => false) "No available ports" [true, false]
        (⟨5432, 1000, none⟩, ⟨5432, 1000, none⟩)).2.result = some (.ok 5432) ∧
    findAvailablePortDb (fun _ => false) 5432 = .ok 5432 := by
  exact ⟨rfl, rfl, rfl⟩

/-- C8 counterexample: the branch named `production` gets the suffix
`-production` in the derived domain, and a feature branch gets no
suffix at all, contradicting the claimed rule that the production
branch has no suffix while every other branch gets its name
appended. -/
theorem production_branch_domain_counterexample :
    deployDomain "api" "production" "example.com" = "api-production.example.com" ∧
    deployDomain "api" "production" "example.com" ≠ "api.example.com" ∧
    deployDomain "api" "feature" "example.com" = "api.example.com" := by
  refine ⟨by decide, by decide, by decide⟩

/-- C8 amended: the derived public domain is the lowercased project
name (whitespace collapsed to dashes) with suffix `-dev` for branch
`dev`, suffix `-production` for branch `production`, and no suffix for
every other branch (such as main or master), followed by the base
domain; deployment and removal use exactly the same derivation, so
both resolve the same domain. -/
theorem domain_rule_shared_by_deploy_and_removal
    (projectName branch baseDomain : String) :
    deployDomain projectName branch baseDomain =
      removalDomain projectName branch baseDomain ∧
    deployDomain projectName branch baseDomain =
      lowerAscii (collapseWhitespace projectName) ++
        (if branch = "dev" then "-dev"
         else if branch = "production" then "-production" else "") ++
        "." ++ baseDomain := by
  constructor
  · rfl
  · unfold deployDomain deploySubdomain dockerImageName
    by_cases h1 : branch = "dev"
    · simp [h1]
    · by_cases h2 : branch = "production"
      · simp [h1, h2]
      · simp [h1, h2]

end Vellaric
